import Mathlib

/-!
Shallow embedding of the asynchronous email-delivery subsystem of the
`moura95/backend-challenge` repository.

The Go sources embedded here:
- `internal/domain/email/email.go` (Email entity, MarkAsSent, MarkAsFailed,
  CanRetry, NewWelcomeEmail, generateWelcomeEmailBody)
- the email validator (`EmailValidator`, package `email`)
- `internal/infra/repository/adapters/email_repository.go` together with the
  sqlc queries in `internal/infra/database/queries/email.sql`
- `internal/application/usecases/email/process_email_queue_usecase.go`
  (Execute, validateEmailForProcessing, attemptEmailSend, handleSendFailure,
  markEmailAsSent, ProcessPendingEmails)
- `internal/infra/messaging/rabbitmq/publisher.go` (Publisher.PublishWelcomeEmail)
- `internal/application/usecases/auth/signup_usecase.go`
  (SignUpUseCase.Execute, orchestrateWelcomeEmail)

Modelling conventions:
- UUIDs are modelled as natural numbers drawn from a strictly increasing
  counter supply: each `uuid.New()` (client- or server-side
  `uuid_generate_v4`) returns the current counter value and increments it.
- Timestamps (`time.Now()`, DB `NOW()`) are abstract naturals supplied by the
  environment.
- Go `int` is modelled as `Int`.
- Go `len` on strings (bytes) is modelled as `String.length`; the two agree on
  all the ASCII content relevant here.
- External effects (SMTP sender outcome, infrastructure failures of store
  updates, broker connectivity) are environment functions, the standard
  shallow embedding of the repository's dependency-injected interfaces.
- Go `error` results are `Option` / `Except` with structured error values
  whose constructors correspond one-to-one to the `fmt.Errorf` sites of the
  source, carrying the wrapped payloads.
-/

namespace BackendChallenge

/-- `Status` from `email.go`: `pending | sent | failed`. -/
inductive Status
  | pending
  | sent
  | failed
deriving DecidableEq, Repr

/-- `EmailType` from `email.go`: only `welcome` exists. -/
inductive EmailType
  | welcome
deriving DecidableEq, Repr

/-- The `Email` struct of `email.go`.  `SentAt *time.Time` becomes
`Option Nat`, `uuid.UUID` becomes `Nat` (counter-supply model). -/
structure Email where
  id : Nat
  toAddr : String
  subject : String
  body : String
  etype : EmailType
  status : Status
  attempts : Int
  maxAttempts : Int
  createdAt : Nat
  sentAt : Option Nat
  errorMsg : String
deriving DecidableEq, Repr

/-- `WelcomeEmailData` from `email.go`. -/
structure WelcomeEmailData where
  userID : String
  userName : String
  userEmail : String
deriving DecidableEq, Repr

/-- `QueueMessage` from `internal/domain/email/interface.go`. -/
structure QueueMessage where
  emailID : Nat
  etype : EmailType
  data : WelcomeEmailData
deriving DecidableEq, Repr

/-- `(e *Email) MarkAsSent()`: unconditionally sets `status = sent` and
`sentAt = now`. -/
def Email.MarkAsSent (e : Email) (now : Nat) : Email :=
  { e with status := Status.sent, sentAt := some now }

/-- `(e *Email) MarkAsFailed(errorMsg string)`: increments `attempts`, stores
the reason, then recomputes the status from the new count. -/
def Email.MarkAsFailed (e : Email) (errorMsg : String) : Email :=
  let e' := { e with attempts := e.attempts + 1, errorMsg := errorMsg }
  if e'.attempts ≥ e'.maxAttempts then { e' with status := Status.failed }
  else { e' with status := Status.pending }

/-- `(e *Email) CanRetry() bool`. -/
def Email.CanRetry (e : Email) : Bool :=
  e.status == Status.pending && decide (e.attempts < e.maxAttempts)

/-- `n` successive `MarkAsFailed` calls with the same reason. -/
def markFailedN (e : Email) (reason : String) : Nat → Email
  | 0 => e
  | n + 1 => (markFailedN e reason n).MarkAsFailed reason

/-! ## Email validator (`EmailValidator`, package `email`) -/

/-- A character of the regex class `[a-zA-Z0-9._%+-]` (local part). -/
def isLocalChar (c : Char) : Bool :=
  c.isAlphanum || c = '.' || c = '_' || c = '%' || c = '+' || c = '-'

/-- A character of the regex class `[a-zA-Z0-9.-]` (domain). -/
def isDomainChar (c : Char) : Bool :=
  c.isAlphanum || c = '.' || c = '-'

/-- Split a character list at every occurrence of `sep` (like
`strings.Split`); always returns at least one piece. -/
def splitOnChar (sep : Char) : List Char → List (List Char)
  | [] => [[]]
  | c :: cs =>
    let rest := splitOnChar sep cs
    if c = sep then [] :: rest
    else
      match rest with
      | r :: rs => (c :: r) :: rs
      | [] => [[c]]

/-- The anchored Go regex
`^[a-zA-Z0-9._%+-]+@[a-zA-Z0-9.-]+\.[a-zA-Z]\x7b2,\x7d$` of
`ValidateEmail`.  Since neither character class contains `@`, a match has
exactly one `@`; since the TLD class is alphabetic, the dot preceding it is
the last dot of the domain, so the regex is decided by splitting at the
unique `@` and at the last `.` of the domain. -/
def emailRegexMatch (s : String) : Bool :=
  match splitOnChar '@' s.toList with
  | [lp, dom] =>
    !lp.isEmpty && lp.all isLocalChar &&
    (match (splitOnChar '.' dom).reverse with
     | tld :: domInitRev =>
       !domInitRev.isEmpty &&
       decide (tld.length ≥ 2) && tld.all (·.isAlpha) &&
       (let m := List.intercalate ['.'] domInitRev.reverse
        !m.isEmpty && m.all isDomainChar)
     | [] => false)
  | _ => false

/-- `ValidateEmail` of the email validator. -/
def ValidateEmail (email : String) : Option String :=
  if email = "" then some "email is required"
  else if !emailRegexMatch email then some "invalid email format"
  else none

/-- `ValidateSubject` of the email validator. -/
def ValidateSubject (subject : String) : Option String :=
  if subject = "" then some "email subject is required"
  else if subject.length > 255 then
    some "email subject must be less than 255 characters"
  else none

/-- `ValidateBody` of the email validator. -/
def ValidateBody (body : String) : Option String :=
  if body = "" then some "email body is required"
  else if body.length > 65535 then some "email body is too large"
  else none

/-- `ValidateType` of the email validator. -/
def ValidateType (emailType : EmailType) : Option String :=
  match emailType with
  | EmailType.welcome => none

/-- `ValidateEmailEntity` of the email validator. -/
def ValidateEmailEntity (e : Email) : Option String :=
  match ValidateEmail e.toAddr with
  | some err => some err
  | none =>
    match ValidateSubject e.subject with
    | some err => some err
    | none =>
      match ValidateBody e.body with
      | some err => some err
      | none =>
        match ValidateType e.etype with
        | some err => some err
        | none =>
          if e.maxAttempts ≤ 0 ∨ e.maxAttempts > 10 then
            some "max attempts must be between 1 and 10"
          else none

/-- `ValidateWelcomeEmailData` of the email validator. -/
def ValidateWelcomeEmailData (data : WelcomeEmailData) : Option String :=
  if data.userID = "" then some "user ID is required"
  else if data.userName = "" then some "user name is required"
  else
    match ValidateEmail data.userEmail with
    | some err => some ("user email validation failed: " ++ err)
    | none => none

/-- The fixed HTML before the user name in `generateWelcomeEmailBody`. -/
def welcomeBodyA : String :=
  "\n<!DOCTYPE html>\n<html>\n<head>\n    <title>Welcome!</title>\n</head>\n<body>\n    <h1>Welcome to Backend Challenge, "

/-- The fixed HTML after the user name in `generateWelcomeEmailBody`. -/
def welcomeBodyB : String :=
  "!</h1>\n    <p>Thank you for signing up! We're excited to have you on board.</p>\n    <p>Best regards,<br>The Backend Challenge Team</p>\n</body>\n</html>\n"

/-- `generateWelcomeEmailBody(userName string)` from `email.go`. -/
def generateWelcomeEmailBody (userName : String) : String :=
  welcomeBodyA ++ userName ++ welcomeBodyB

/-- `NewWelcomeEmail(data)` from `email.go`.  `ctr` is the uuid-supply
counter (`uuid.New()` consumes one value), `now` the creation timestamp.
Returns the Go result together with the advanced counter. -/
def NewWelcomeEmail (ctr now : Nat) (data : WelcomeEmailData) :
    Except String Email × Nat :=
  match ValidateWelcomeEmailData data with
  | some err => (Except.error err, ctr)
  | none =>
    let email : Email :=
      { id := ctr
        toAddr := data.userEmail
        subject := "Welcome to Backend Challenge!"
        body := generateWelcomeEmailBody data.userName
        etype := EmailType.welcome
        status := Status.pending
        attempts := 0
        maxAttempts := 3
        createdAt := now
        sentAt := none
        errorMsg := "" }
    match ValidateEmailEntity email with
    | some err => (Except.error err, ctr + 1)
    | none => (Except.ok email, ctr + 1)

/-! ## Email store (`email_repository.go` + `queries/email.sql`) -/

/-- The `emails` table: rows keyed by uuid, in insertion order. -/
abbrev DB := List (Nat × Email)

/-- `GetEmailByID`: `SELECT * FROM emails WHERE uuid = $1`. -/
def dbLookup (db : DB) (id : Nat) : Option Email :=
  (db.find? (fun r => r.1 = id)).map (·.2)

/-- The effect of `UpdateEmail` on one row: `status` and `attempts` are
always written (the adapter marks them `Valid`); `error_msg` is written only
when the entity's message is non-empty, `sent_at` only when non-nil
(`COALESCE` keeps the old column otherwise). -/
def applyUpdateRow (old new : Email) : Email :=
  { old with
    status := new.status
    attempts := new.attempts
    errorMsg := if new.errorMsg = "" then old.errorMsg else new.errorMsg
    sentAt :=
      match new.sentAt with
      | some t => some t
      | none => old.sentAt }

/-- `UpdateEmail`: `UPDATE emails SET ... WHERE uuid = $1` (a missing row is
a no-op; the query is `:exec`). -/
def dbUpdate (db : DB) (e : Email) : DB :=
  db.map (fun r => if r.1 = e.id then (r.1, applyUpdateRow r.2 e) else r)

/-- `CreateEmail`: `INSERT ... RETURNING *`.  The server generates the row
uuid (`uuid_generate_v4`, one draw from the counter supply) and `created_at`;
`error_msg` and `sent_at` are not inserted (NULL).  The adapter then copies
the generated uuid and timestamp back onto the domain entity.  Returns the
extended table, the written-back entity, and the advanced counter. -/
def repoCreateEmail (db : DB) (ctr now : Nat) (e : Email) :
    DB × Email × Nat :=
  let row : Email :=
    { e with id := ctr, createdAt := now, errorMsg := "", sentAt := none }
  (db ++ [(ctr, row)], { e with id := ctr, createdAt := now }, ctr + 1)

/-- Errors surfaced by the email repository adapter. -/
inductive RepoErr
  | notFound
  | infra (msg : String)
deriving DecidableEq, Repr

/-- The message text the adapter puts in each error. -/
def RepoErr.msg : RepoErr → String
  | RepoErr.notFound => "email not found"
  | RepoErr.infra m => m

/-! ## Consumer use case (`process_email_queue_usecase.go`) -/

/-- Environment of the use case: the dependency-injected sender outcome
(`nil` = success), infrastructure failures of `Update`, infrastructure
failure of `GetPendingEmails`, and the clock. -/
structure ConsumerEnv where
  send : Email → Option String
  updateFail : Email → Option String
  getPendingFail : Option String
  now : Nat

/-- `emailRepo.GetByID` (`sql.ErrNoRows` becomes the adapter's
not-found error). -/
def repoGetByID (db : DB) (id : Nat) : Except RepoErr Email :=
  match dbLookup db id with
  | some e => Except.ok e
  | none => Except.error RepoErr.notFound

/-- `emailRepo.Update`: an infrastructure failure (environment-chosen)
leaves the table untouched; otherwise the row is overwritten. -/
def repoUpdate (env : ConsumerEnv) (db : DB) (e : Email) :
    Except RepoErr DB :=
  match env.updateFail e with
  | some m => Except.error (RepoErr.infra m)
  | none => Except.ok (dbUpdate db e)

/-- Stable insertion into a list ascending by `createdAt`. -/
def insertByCreatedAt (e : Email) : List Email → List Email
  | [] => [e]
  | x :: xs =>
    if x.createdAt ≤ e.createdAt then x :: insertByCreatedAt e xs
    else e :: x :: xs

/-- Stable sort ascending by `createdAt` (`ORDER BY created_at ASC`). -/
def sortByCreatedAt : List Email → List Email
  | [] => []
  | x :: xs => insertByCreatedAt x (sortByCreatedAt xs)

/-- `emailRepo.GetPendingEmails`: `WHERE status = 'pending' ORDER BY
created_at ASC LIMIT $1`; the adapter replaces a non-positive limit by 10. -/
def repoGetPendingEmails (env : ConsumerEnv) (db : DB) (limit : Int) :
    Except RepoErr (List Email) :=
  match env.getPendingFail with
  | some m => Except.error (RepoErr.infra m)
  | none =>
    let limit := if limit ≤ 0 then (10 : Int) else limit
    Except.ok
      ((sortByCreatedAt
          ((db.map (·.2)).filter (fun e => e.status == Status.pending))).take
        limit.toNat)

/-- Errors returned by `ProcessEmailQueueUseCase`; one constructor per
`fmt.Errorf` site, carrying the wrapped payloads. -/
inductive ProcErr
  | getFailed (e : RepoErr)
  | cannotRetry (attempts maxAttempts : Int)
  | sendAndUpdateFailed (sendErr updateErr : String)
  | permanentlyFailed (maxAttempts : Int) (sendErr : String)
  | updateAfterSendFailed (e : RepoErr)
  | pendingFetchFailed (e : RepoErr)
deriving DecidableEq, Repr

/-- The observable outcome of one use-case run: the Go `error` result
(`none` = nil), the table afterwards, and the entities passed to
`emailSender.SendEmail`, in order. -/
structure ExecOut where
  result : Option ProcErr
  db : DB
  senderCalls : List Email
deriving DecidableEq, Repr

/-- `validateEmailForProcessing`: a sent email yields `nil` ("apenas
ignora"), a non-retryable one an error, anything else `nil`. -/
def validateEmailForProcessing (e : Email) : Option ProcErr :=
  if e.status == Status.sent then none
  else if !e.CanRetry then some (ProcErr.cannotRetry e.attempts e.maxAttempts)
  else none

/-- `attemptEmailSend`: increments `Attempts` on the entity, then calls the
sender; a sender error is wrapped as `email send failed: ...`.  Returns the
mutated entity and the wrapped error. -/
def attemptEmailSend (env : ConsumerEnv) (e : Email) : Email × Option String :=
  let e' := { e with attempts := e.attempts + 1 }
  match env.send e' with
  | some m => (e', some ("email send failed: " ++ m))
  | none => (e', none)

/-- `handleSendFailure`: `MarkAsFailed`, persist via `Update`; a failing
update yields the combined error; otherwise `nil` when the entity can still
retry, else the permanent-failure error. -/
def handleSendFailure (env : ConsumerEnv) (db : DB) (e : Email)
    (sendErr : String) : Option ProcErr × DB :=
  let e' := e.MarkAsFailed sendErr
  match repoUpdate env db e' with
  | Except.error ue => (some (ProcErr.sendAndUpdateFailed sendErr ue.msg), db)
  | Except.ok db' =>
    if e'.CanRetry then (none, db')
    else (some (ProcErr.permanentlyFailed e'.maxAttempts sendErr), db')

/-- `markEmailAsSent`: `MarkAsSent`, persist via `Update`. -/
def markEmailAsSent (env : ConsumerEnv) (db : DB) (e : Email) :
    Option ProcErr × DB :=
  let e' := e.MarkAsSent env.now
  match repoUpdate env db e' with
  | Except.error ue => (some (ProcErr.updateAfterSendFailed ue), db)
  | Except.ok db' => (none, db')

/-- `ProcessEmailQueueUseCase.Execute`. -/
def Execute (env : ConsumerEnv) (db : DB) (message : QueueMessage) : ExecOut :=
  match repoGetByID db message.emailID with
  | Except.error err => ⟨some (ProcErr.getFailed err), db, []⟩
  | Except.ok emailEntity =>
    match validateEmailForProcessing emailEntity with
    | some err => ⟨some err, db, []⟩
    | none =>
      match attemptEmailSend env emailEntity with
      | (e', some sendErr) =>
        let (r, db') := handleSendFailure env db e' sendErr
        ⟨r, db', [e']⟩
      | (e', none) =>
        let (r, db') := markEmailAsSent env db e'
        ⟨r, db', [e']⟩

/-- The loop body of `ProcessPendingEmails`: each fetched entity is wrapped
into a `QueueMessage` (only `Type` and `EmailID` are filled) and handed to
`Execute`; errors are counted, never propagated.  The table is threaded
because `Execute` re-reads the live store. -/
def processBatch (env : ConsumerEnv) (db : DB) (emails : List Email) :
    DB × List Email :=
  emails.foldl
    (fun acc e =>
      let out := Execute env acc.1 ⟨e.id, e.etype, ⟨"", "", ""⟩⟩
      (out.db, acc.2 ++ out.senderCalls))
    (db, [])

/-- `ProcessPendingEmails`: fetch a pending batch; an empty batch is `nil`;
otherwise run the loop and return `nil` regardless of per-email outcomes. -/
def ProcessPendingEmails (env : ConsumerEnv) (db : DB) (batchSize : Int) :
    ExecOut :=
  match repoGetPendingEmails env db batchSize with
  | Except.error err => ⟨some (ProcErr.pendingFetchFailed err), db, []⟩
  | Except.ok pendingEmails =>
    if pendingEmails.length = 0 then ⟨none, db, []⟩
    else
      let (db', calls) := processBatch env db pendingEmails
      ⟨none, db', calls⟩

/-! ## Publisher (`rabbitmq/publisher.go`, `Publisher.PublishWelcomeEmail`) -/

/-- Broker-side environment: connectivity and the outcome of
`channel.Publish`. -/
structure PublisherEnv where
  connected : Bool
  publishFail : Option String
deriving DecidableEq, Repr

/-- Errors of `Publisher.PublishWelcomeEmail`. -/
inductive PubErr
  | notConnected
  | publishFailed (msg : String)
deriving DecidableEq, Repr

/-- The message text of each publisher error. -/
def PubErr.msg : PubErr → String
  | PubErr.notConnected => "publisher: RabbitMQ connection is not available"
  | PubErr.publishFailed m => "publisher: failed to publish message: " ++ m

/-- `Publisher.PublishWelcomeEmail`: after the connectivity check it builds a
`QueueMessage` whose `EmailID` is a fresh `uuid.New()` (one counter draw),
marshals it and publishes it.  Returns the Go error, the advanced counter and
the list of messages actually enqueued. -/
def PublishWelcomeEmail (penv : PublisherEnv) (ctr : Nat)
    (data : WelcomeEmailData) : Option PubErr × Nat × List QueueMessage :=
  if !penv.connected then (some PubErr.notConnected, ctr, [])
  else
    let message : QueueMessage := ⟨ctr, EmailType.welcome, data⟩
    match penv.publishFail with
    | some m => (some (PubErr.publishFailed m), ctr + 1, [])
    | none => (none, ctr + 1, [message])

/-! ## Signup use case (`auth/signup_usecase.go`) -/

/-- `uuid.UUID.String()`: the canonical textual form of a uuid is a
36-character dashed hex string — in particular never empty — modelled as a
non-empty injective rendering of the counter value. -/
def uuidString (n : Nat) : String := "uuid-" ++ toString n

/-- The slice of the `User` entity the email path consumes. -/
structure User where
  id : Nat
  name : String
  email : String
deriving DecidableEq, Repr

/-- `SignUpRequest`. -/
structure SignUpRequest where
  name : String
  email : String
  password : String
deriving DecidableEq, Repr

/-- `SignUpResponse`. -/
structure SignUpResponse where
  user : User
  token : String
deriving DecidableEq, Repr

/-- Outcomes of the signup use case's collaborators, which the spec scopes
as black boxes: `userRepo.EmailExists`, the validation/hashing inside
`user.NewUser`, `userRepo.Create`, `tokenMaker.CreateToken`,
`emailRepo.Create` infrastructure failure, and the (possibly nil)
`emailPublisher`. -/
structure SignUpEnv where
  emailExistsErr : Option String
  emailExistsVal : Bool
  newUserErr : Option String
  userCreateErr : Option String
  tokenErr : Option String
  tokenVal : String
  emailCreateErr : Option String
  publisher : Option PublisherEnv
  now : Nat

/-- State threaded through the signup flow: the uuid-supply counter, the
`emails` table and the broker queue contents. -/
structure SigState where
  ctr : Nat
  emailDb : DB
  published : List QueueMessage
deriving Repr

/-- `orchestrateWelcomeEmail`: build `WelcomeEmailData` from the user,
`NewWelcomeEmail` (one uuid draw), persist via `emailRepo.Create` (one
server-side uuid draw), then publish when a publisher is wired
(`uc.emailPublisher != nil`); each failure is wrapped and returned. -/
def orchestrateWelcomeEmail (env : SignUpEnv) (st : SigState) (u : User) :
    Option String × SigState :=
  let data : WelcomeEmailData :=
    { userID := uuidString u.id, userName := u.name, userEmail := u.email }
  match NewWelcomeEmail st.ctr env.now data with
  | (Except.error err, ctr') =>
    (some ("failed to create welcome email: " ++ err), { st with ctr := ctr' })
  | (Except.ok welcomeEmail, ctr') =>
    match env.emailCreateErr with
    | some err =>
      (some ("failed to persist welcome email: " ++ err), { st with ctr := ctr' })
    | none =>
      let (db', _, ctr'') := repoCreateEmail st.emailDb ctr' env.now welcomeEmail
      let st' : SigState := { st with ctr := ctr'', emailDb := db' }
      match env.publisher with
      | none => (none, st')
      | some penv =>
        match PublishWelcomeEmail penv st'.ctr data with
        | (some pe, ctr3, msgs) =>
          (some ("failed to publish welcome email: " ++ pe.msg),
           { st' with ctr := ctr3, published := st'.published ++ msgs })
        | (none, ctr3, msgs) =>
          (none, { st' with ctr := ctr3, published := st'.published ++ msgs })

/-- `SignUpUseCase.Execute`: duplicate check, `user.NewUser` (one uuid draw,
overwritten by the server-side uuid on `userRepo.Create`), token issue, then
`orchestrateWelcomeEmail`, whose error is logged and dropped. -/
def SignUpExecute (env : SignUpEnv) (st : SigState) (req : SignUpRequest) :
    Except String SignUpResponse × SigState :=
  match env.emailExistsErr with
  | some err => (Except.error ("usecase: signup failed: " ++ err), st)
  | none =>
    if env.emailExistsVal then
      (Except.error "usecase: signup failed: email already exists", st)
    else
      match env.newUserErr with
      | some err => (Except.error ("usecase: signup failed: " ++ err), st)
      | none =>
        let newUser : User := { id := st.ctr, name := req.name, email := req.email }
        let st1 : SigState := { st with ctr := st.ctr + 1 }
        match env.userCreateErr with
        | some err => (Except.error ("usecase: signup failed: " ++ err), st1)
        | none =>
          let newUser' : User := { newUser with id := st1.ctr }
          let st2 : SigState := { st1 with ctr := st1.ctr + 1 }
          match env.tokenErr with
          | some err =>
            (Except.error ("usecase: signup failed: token generation error: " ++ err), st2)
          | none =>
            let (_, st3) := orchestrateWelcomeEmail env st2 newUser'
            (Except.ok { user := newUser', token := env.tokenVal }, st3)

/-! ## Guarded mark-failed sequences -/

/-- Sequences of `MarkAsFailed` calls in which every call is made only while
the entity still satisfies `CanRetry` — the gate the pipeline consults before
attempting delivery. -/
inductive GuardedMarkFailed : Email → Email → Prop
  | refl (e : Email) : GuardedMarkFailed e e
  | step (e e' : Email) (r : String) :
      GuardedMarkFailed e e' → e'.CanRetry = true →
      GuardedMarkFailed e (e'.MarkAsFailed r)

/-! ## Concrete fixtures -/

/-- An email record already delivered (`status = sent`). -/
def sentFixture : Email :=
  { id := 1
    toAddr := "user@example.com"
    subject := "Welcome to Backend Challenge!"
    body := "hello"
    etype := EmailType.welcome
    status := Status.sent
    attempts := 0
    maxAttempts := 3
    createdAt := 0
    sentAt := some 0
    errorMsg := "" }

/-- A fresh pending email record (`attempts = 0`, `max_attempts = 3`). -/
def freshFixture : Email :=
  { sentFixture with status := Status.pending, sentAt := none }

/-- Consumer environment whose sender always succeeds and whose store never
fails. -/
def okSenderEnv : ConsumerEnv :=
  { send := fun _ => none
    updateFail := fun _ => none
    getPendingFail := none
    now := 5 }

/-- Consumer environment whose sender always fails with `smtp down`. -/
def failSenderEnv : ConsumerEnv :=
  { okSenderEnv with send := fun _ => some "smtp down" }

/-- Consumer environment whose store rejects every `Update`. -/
def updateFailEnv : ConsumerEnv :=
  { okSenderEnv with
    send := fun _ => some "smtp down"
    updateFail := fun _ => some "db down" }

/-- A queue message referencing record 1. -/
def msgFixture : QueueMessage := ⟨1, EmailType.welcome, ⟨"", "", ""⟩⟩

/-- Signup environment in which every collaborator succeeds and a connected
publisher is wired. -/
def signupEnvOk : SignUpEnv :=
  { emailExistsErr := none
    emailExistsVal := false
    newUserErr := none
    userCreateErr := none
    tokenErr := none
    tokenVal := "tok"
    emailCreateErr := none
    publisher := some { connected := true, publishFail := none }
    now := 9 }

/-- The same signup environment with a disconnected broker. -/
def signupEnvPubDown : SignUpEnv :=
  { signupEnvOk with publisher := some { connected := false, publishFail := none } }

/-- A concrete signup request. -/
def signupReqFixture : SignUpRequest :=
  { name := "John", email := "john@example.com", password := "Secret123" }

/-- An initial signup state: counter 0, empty table, empty queue. -/
def sigStateFixture : SigState := { ctr := 0, emailDb := [], published := [] }

set_option maxRecDepth 16384

/-! ## Helper lemmas about the domain mutators -/

theorem markAsFailed_attempts (e : Email) (r : String) :
    (e.MarkAsFailed r).attempts = e.attempts + 1 := by
  unfold Email.MarkAsFailed
  dsimp only
  split <;> rfl

theorem markAsFailed_maxAttempts (e : Email) (r : String) :
    (e.MarkAsFailed r).maxAttempts = e.maxAttempts := by
  unfold Email.MarkAsFailed
  dsimp only
  split <;> rfl

theorem markAsFailed_errorMsg (e : Email) (r : String) :
    (e.MarkAsFailed r).errorMsg = r := by
  unfold Email.MarkAsFailed
  dsimp only
  split <;> rfl

theorem markAsFailed_status (e : Email) (r : String) :
    (e.MarkAsFailed r).status =
      if e.attempts + 1 ≥ e.maxAttempts then Status.failed else Status.pending := by
  unfold Email.MarkAsFailed
  dsimp only
  split <;> rename_i h <;> simp [h]

theorem markFailedN_attempts (e : Email) (r : String) (n : Nat) :
    (markFailedN e r n).attempts = e.attempts + n := by
  induction n with
  | zero => simp [markFailedN]
  | succ n ih =>
    rw [markFailedN, markAsFailed_attempts, ih]
    push_cast
    ring

theorem markFailedN_maxAttempts (e : Email) (r : String) (n : Nat) :
    (markFailedN e r n).maxAttempts = e.maxAttempts := by
  induction n with
  | zero => simp [markFailedN]
  | succ n ih => rw [markFailedN, markAsFailed_maxAttempts, ih]

theorem markFailedN_status (e : Email) (r : String) (n : Nat) (h : 1 ≤ n) :
    (markFailedN e r n).status =
      if e.attempts + n ≥ e.maxAttempts then Status.failed else Status.pending := by
  cases n with
  | zero => omega
  | succ n =>
    rw [markFailedN, markAsFailed_status, markFailedN_attempts, markFailedN_maxAttempts]
    have harith : e.attempts + (n : Int) + 1 = e.attempts + ((n + 1 : Nat) : Int) := by
      push_cast
      ring
    rw [harith]

/-! ## Helper lemmas about the validator and the store -/

theorem append_ne_empty_left (a b : String) (ha : a.length ≠ 0) : a ++ b ≠ "" := by
  intro h
  have hlen := congrArg String.length h
  rw [String.length_append] at hlen
  have h0 : ("" : String).length = 0 := rfl
  rw [h0] at hlen
  omega

theorem uuidString_ne_empty (n : Nat) : uuidString n ≠ "" := by
  unfold uuidString
  apply append_ne_empty_left
  decide

theorem generateWelcomeEmailBody_ne_empty (name : String) :
    generateWelcomeEmailBody name ≠ "" := by
  unfold generateWelcomeEmailBody
  apply append_ne_empty_left
  rw [String.length_append]
  have hA : welcomeBodyA.length ≠ 0 := by decide
  omega

theorem validateEmail_none (s : String) (h : emailRegexMatch s = true) :
    ValidateEmail s = none := by
  have hne : s ≠ "" := by
    intro hs
    rw [hs] at h
    exact absurd h (by decide)
  unfold ValidateEmail
  rw [if_neg hne, h]
  rfl

theorem validateWelcomeEmailData_none (data : WelcomeEmailData)
    (hid : data.userID ≠ "") (hname : data.userName ≠ "")
    (hemail : emailRegexMatch data.userEmail = true) :
    ValidateWelcomeEmailData data = none := by
  unfold ValidateWelcomeEmailData
  rw [if_neg hid, if_neg hname, validateEmail_none _ hemail]

theorem newWelcomeEmail_ok (ctr now : Nat) (data : WelcomeEmailData)
    (hid : data.userID ≠ "") (hname : data.userName ≠ "")
    (hemail : emailRegexMatch data.userEmail = true)
    (hbody : (generateWelcomeEmailBody data.userName).length ≤ 65535) :
    NewWelcomeEmail ctr now data =
      (Except.ok
        { id := ctr, toAddr := data.userEmail,
          subject := "Welcome to Backend Challenge!",
          body := generateWelcomeEmailBody data.userName,
          etype := EmailType.welcome, status := Status.pending,
          attempts := 0, maxAttempts := 3, createdAt := now,
          sentAt := none, errorMsg := "" }, ctr + 1) := by
  have hbody' : ValidateBody (generateWelcomeEmailBody data.userName) = none := by
    unfold ValidateBody
    rw [if_neg (generateWelcomeEmailBody_ne_empty _), if_neg (by omega)]
  have hsub : ValidateSubject "Welcome to Backend Challenge!" = none := by decide
  unfold NewWelcomeEmail
  rw [validateWelcomeEmailData_none data hid hname hemail]
  dsimp only
  unfold ValidateEmailEntity
  dsimp only
  rw [validateEmail_none _ hemail, hsub, hbody']
  dsimp only
  rw [if_neg (by norm_num)]
  rfl

theorem dbLookup_eq_none (db : DB) (k : Nat) (h : ∀ p ∈ db, p.1 ≠ k) :
    dbLookup db k = none := by
  unfold dbLookup
  rw [List.find?_eq_none.mpr]
  · rfl
  · intro x hx
    simp only [decide_eq_true_eq]
    exact h x hx

/-! ## Claim theorems -/

/-- C5: on a pending email, `markFailed(reason)` increments `attempts` by
exactly 1, stores the reason, and yields `failed` exactly when the new count
reaches `max_attempts`, else stays `pending`; from a fresh pending email,
`max_attempts - 1` calls leave it `pending` with `CanRetry = true`, and
exactly `max_attempts` calls leave it `failed` with
`attempts = max_attempts`. -/
theorem c5_markFailed_contract (e : Email) (reason : String)
    (hpend : e.status = Status.pending) :
    ((e.MarkAsFailed reason).attempts = e.attempts + 1 ∧
     (e.MarkAsFailed reason).errorMsg = reason ∧
     (e.MarkAsFailed reason).status =
       (if e.attempts + 1 ≥ e.maxAttempts then Status.failed else Status.pending)) ∧
    (e.attempts = 0 → 0 < e.maxAttempts →
      ((markFailedN e reason (e.maxAttempts - 1).toNat).status = Status.pending ∧
       (markFailedN e reason (e.maxAttempts - 1).toNat).CanRetry = true ∧
       (markFailedN e reason e.maxAttempts.toNat).status = Status.failed ∧
       (markFailedN e reason e.maxAttempts.toNat).attempts = e.maxAttempts)) := by
  refine ⟨⟨markAsFailed_attempts e reason, markAsFailed_errorMsg e reason,
    markAsFailed_status e reason⟩, fun h0 hm => ?_⟩
  have hcast : ((e.maxAttempts - 1).toNat : Int) = e.maxAttempts - 1 :=
    Int.toNat_of_nonneg (by omega)
  have hcastm : (e.maxAttempts.toNat : Int) = e.maxAttempts :=
    Int.toNat_of_nonneg (by omega)
  have hstatusPending :
      (markFailedN e reason (e.maxAttempts - 1).toNat).status = Status.pending := by
    rcases Nat.eq_zero_or_pos (e.maxAttempts - 1).toNat with hz | hpos
    · rw [hz]
      exact hpend
    · rw [markFailedN_status e reason _ hpos, if_neg (by omega)]
  refine ⟨hstatusPending, ?_, ?_, ?_⟩
  · simp only [Email.CanRetry, hstatusPending, markFailedN_attempts,
      markFailedN_maxAttempts, h0, beq_self_eq_true, Bool.true_and,
      decide_eq_true_eq]
    omega
  · have hpos : 1 ≤ e.maxAttempts.toNat := by omega
    rw [markFailedN_status e reason _ hpos, if_pos (by omega)]
  · rw [markFailedN_attempts]
    omega

/-- Witness for C5 at a fresh pending email with `max_attempts = 3`. -/
theorem c5_witness :
    (markFailedN freshFixture "boom" 2).status = Status.pending ∧
    (markFailedN freshFixture "boom" 2).CanRetry = true ∧
    (markFailedN freshFixture "boom" 3).status = Status.failed ∧
    (markFailedN freshFixture "boom" 3).attempts = 3 :=
  (c5_markFailed_contract freshFixture "boom" (by decide)).2 (by decide) (by decide)

/-- C4 counterexample: four unguarded `markFailed` calls on a fresh pending
email with `max_attempts = 3` drive `attempts` to 4, violating
`attempts ≤ max_attempts`. -/
theorem c4_counterexample :
    (markFailedN freshFixture "x" 4).maxAttempts = 3 ∧
    (markFailedN freshFixture "x" 4).attempts = 4 ∧
    ¬(markFailedN freshFixture "x" 4).attempts ≤
        (markFailedN freshFixture "x" 4).maxAttempts := by
  decide

/-- C4 (amended): `attempts ≤ max_attempts` is preserved by every sequence
of `markFailed` calls in which each call is made only while the email still
satisfies `CanRetry` — the gate the pipeline consults before a delivery
attempt. -/
theorem c4_amended_guarded_invariant (e e' : Email)
    (h0 : e.attempts ≤ e.maxAttempts) (h : GuardedMarkFailed e e') :
    e'.attempts ≤ e'.maxAttempts := by
  induction h with
  | refl => exact h0
  | step e2 r _ hcan ih =>
    have hlt : e2.attempts < e2.maxAttempts := by
      simp only [Email.CanRetry, Bool.and_eq_true, decide_eq_true_eq] at hcan
      exact hcan.2
    rw [markAsFailed_attempts, markAsFailed_maxAttempts]
    omega

/-- Witness for the amended C4: one guarded call on a fresh email. -/
theorem c4_witness :
    (freshFixture.MarkAsFailed "x").attempts ≤
      (freshFixture.MarkAsFailed "x").maxAttempts :=
  c4_amended_guarded_invariant freshFixture (freshFixture.MarkAsFailed "x")
    (by decide)
    (GuardedMarkFailed.step freshFixture freshFixture "x"
      (GuardedMarkFailed.refl freshFixture) (by decide))

/-- C10: the entity mutators do not guard terminal states — `MarkAsSent`
unconditionally stamps `sent`/`sent_at` whatever the current status, and
`MarkAsFailed` on a `sent` email with `attempts + 1 < max_attempts` moves it
back to `pending`. -/
theorem c10_unguarded_terminal_states (e : Email) (now : Nat) (r : String) :
    ((e.MarkAsSent now).status = Status.sent ∧
     (e.MarkAsSent now).sentAt = some now) ∧
    (e.status = Status.sent → e.attempts + 1 < e.maxAttempts →
      (e.MarkAsFailed r).status = Status.pending) := by
  refine ⟨⟨rfl, rfl⟩, fun _ hlt => ?_⟩
  rw [markAsFailed_status, if_neg (by omega)]

/-- Witness for C10 at a failed and a sent record. -/
theorem c10_witness :
    (({ sentFixture with status := Status.failed } : Email).MarkAsSent 7).status
        = Status.sent ∧
    (sentFixture.MarkAsFailed "x").status = Status.pending :=
  ⟨((c10_unguarded_terminal_states { sentFixture with status := Status.failed } 7 "x").1).1,
   (c10_unguarded_terminal_states sentFixture 7 "x").2 (by decide) (by decide)⟩

/-- C9: a queue message whose `EmailID` is not in the store makes `Execute`
return the wrapped not-found error, leave the table untouched and never call
the sender. -/
theorem c9_missing_email_no_writes (env : ConsumerEnv) (db : DB)
    (message : QueueMessage) (h : dbLookup db message.emailID = none) :
    (Execute env db message).result = some (ProcErr.getFailed RepoErr.notFound) ∧
    (Execute env db message).db = db ∧
    (Execute env db message).senderCalls = [] := by
  unfold Execute repoGetByID
  rw [h]
  exact ⟨rfl, rfl, rfl⟩

/-- Witness for C9: an empty store. -/
theorem c9_witness :
    (Execute okSenderEnv [] msgFixture).result =
        some (ProcErr.getFailed RepoErr.notFound) ∧
    (Execute okSenderEnv [] msgFixture).db = [] ∧
    (Execute okSenderEnv [] msgFixture).senderCalls = [] :=
  c9_missing_email_no_writes okSenderEnv [] msgFixture (by decide)

/-- C1 fails on the code: on a record whose stored status is `sent`,
`validateEmailForProcessing` returns `nil` and `Execute` treats `nil` as
"proceed", so the run returns success but invokes the sender once, bumps
`attempts` to 1 and rewrites the stored row (`sent_at` is restamped) —
instead of the zero-invocation, store-unchanged skip the claim states. -/
theorem c1_sent_email_is_reprocessed :
    (Execute okSenderEnv [(1, sentFixture)] msgFixture).result = none ∧
    (Execute okSenderEnv [(1, sentFixture)] msgFixture).senderCalls =
      [{ sentFixture with attempts := 1 }] ∧
    dbLookup (Execute okSenderEnv [(1, sentFixture)] msgFixture).db 1 =
      some { sentFixture with attempts := 1, sentAt := some 5 } := by
  decide

/-- C3 fails on the code: a failed delivery increments `attempts` twice
(once in `attemptEmailSend` before the send, once in `MarkAsFailed`), and a
successful delivery increments it once.  On a fresh pending email with
`max_attempts = 3` and an always-failing sender, the first `Execute` stores
`attempts = 2` (the claim and the repository's own tests say 1), the second
already stores `attempts = 4, status = failed` and returns the
permanent-failure error (the claim says this happens on the third with
`attempts = 3`), and a successful run stores `attempts = 1` (the claim says
success never increments). -/
theorem c3_attempts_double_increment :
    ((dbLookup (Execute failSenderEnv [(1, freshFixture)] msgFixture).db 1).map
        (fun e => (e.attempts, e.status)) = some (2, Status.pending) ∧
     (Execute failSenderEnv [(1, freshFixture)] msgFixture).result = none) ∧
    ((Execute failSenderEnv
        (Execute failSenderEnv [(1, freshFixture)] msgFixture).db
        msgFixture).result =
      some (ProcErr.permanentlyFailed 3 "email send failed: smtp down") ∧
     (dbLookup (Execute failSenderEnv
        (Execute failSenderEnv [(1, freshFixture)] msgFixture).db
        msgFixture).db 1).map (fun e => (e.attempts, e.status)) =
      some (4, Status.failed)) ∧
    (dbLookup (Execute okSenderEnv [(1, freshFixture)] msgFixture).db 1).map
        (fun e => e.attempts) = some 1 := by
  decide

/-- C6: whenever the sender fails inside `Execute`, the failure is recorded
via `MarkAsFailed` and persisted via `Update`; a successful update yields
`nil` when the entity can still retry and the permanent-failure error when
it is exhausted, while a failing update yields the combined error carrying
both failure messages and leaves the store untouched. -/
theorem c6_send_failure_handling (env : ConsumerEnv) (db : DB)
    (message : QueueMessage) (e : Email) (m : String)
    (hget : dbLookup db message.emailID = some e)
    (hval : validateEmailForProcessing e = none)
    (hsend : env.send { e with attempts := e.attempts + 1 } = some m) :
    ((env.updateFail
        (({ e with attempts := e.attempts + 1 } : Email).MarkAsFailed
          ("email send failed: " ++ m)) = none →
      (Execute env db message).db =
        dbUpdate db
          (({ e with attempts := e.attempts + 1 } : Email).MarkAsFailed
            ("email send failed: " ++ m)) ∧
      ((({ e with attempts := e.attempts + 1 } : Email).MarkAsFailed
          ("email send failed: " ++ m)).CanRetry = true →
        (Execute env db message).result = none) ∧
      ((({ e with attempts := e.attempts + 1 } : Email).MarkAsFailed
          ("email send failed: " ++ m)).CanRetry = false →
        (Execute env db message).result =
          some (ProcErr.permanentlyFailed
            ((({ e with attempts := e.attempts + 1 } : Email).MarkAsFailed
              ("email send failed: " ++ m)).maxAttempts)
            ("email send failed: " ++ m)))) ∧
     (∀ u, env.updateFail
        (({ e with attempts := e.attempts + 1 } : Email).MarkAsFailed
          ("email send failed: " ++ m)) = some u →
      (Execute env db message).result =
        some (ProcErr.sendAndUpdateFailed ("email send failed: " ++ m) u) ∧
      (Execute env db message).db = db)) := by
  have hexec :
      Execute env db message =
        (let e' : Email := { e with attempts := e.attempts + 1 }
         let p := handleSendFailure env db e' ("email send failed: " ++ m)
         ⟨p.1, p.2, [e']⟩) := by
    unfold Execute repoGetByID attemptEmailSend
    rw [hget]
    dsimp only
    rw [hval]
    dsimp only
    rw [hsend]
  rw [hexec]
  dsimp only
  unfold handleSendFailure repoUpdate
  dsimp only
  constructor
  · intro hup
    rw [hup]
    dsimp only
    refine ⟨?_, fun hcr => ?_, fun hcr => ?_⟩
    · split <;> rfl
    · simp only [hcr, if_pos]
    · simp only [hcr, Bool.false_eq_true, if_false]
  · intro u hup
    rw [hup]
    exact ⟨rfl, rfl⟩

/-- Witness for C6: retryable branch on a fresh record with a failing
sender, and the combined-error branch with a failing store. -/
theorem c6_witness :
    (Execute failSenderEnv [(1, freshFixture)] msgFixture).result = none ∧
    (Execute updateFailEnv [(1, freshFixture)] msgFixture).result =
      some (ProcErr.sendAndUpdateFailed "email send failed: smtp down" "db down") := by
  constructor
  · exact ((c6_send_failure_handling failSenderEnv [(1, freshFixture)] msgFixture
      freshFixture "smtp down" (by decide) (by decide) rfl).1 rfl).2.1 (by decide)
  · exact ((c6_send_failure_handling updateFailEnv [(1, freshFixture)] msgFixture
      freshFixture "smtp down" (by decide) (by decide) rfl).2 "db down" rfl).1

/-- C8: whenever the pending-batch fetch succeeds, `ProcessPendingEmails`
returns `nil` — even if every per-email `Execute` fails — and the final
store is exactly the one obtained by running `Execute` on each fetched email
in order. -/
theorem c8_batch_never_aborts (env : ConsumerEnv) (db : DB) (batchSize : Int)
    (l : List Email)
    (hfetch : repoGetPendingEmails env db batchSize = Except.ok l) :
    (ProcessPendingEmails env db batchSize).result = none ∧
    (ProcessPendingEmails env db batchSize).db = (processBatch env db l).1 := by
  unfold ProcessPendingEmails
  rw [hfetch]
  dsimp only
  by_cases hl : l.length = 0
  · rw [if_pos hl]
    have : l = [] := List.length_eq_zero.mp hl
    subst this
    exact ⟨rfl, rfl⟩
  · rw [if_neg hl]
    exact ⟨rfl, rfl⟩

/-- Witness for C8: a one-element batch whose send fails; the job still
returns `nil`. -/
theorem c8_witness :
    (ProcessPendingEmails failSenderEnv [(1, freshFixture)] 10).result = none ∧
    (ProcessPendingEmails failSenderEnv [(1, freshFixture)] 10).db =
      (processBatch failSenderEnv [(1, freshFixture)] [freshFixture]).1 :=
  c8_batch_never_aborts failSenderEnv [(1, freshFixture)] 10 [freshFixture] rfl

/-- When the duplicate check, user creation, user persistence and token issue
all succeed, `SignUpExecute` returns the success response and hands the
post-token state to `orchestrateWelcomeEmail`, whose error is dropped. -/
theorem signUpExecute_happy_shape (env : SignUpEnv) (st : SigState)
    (req : SignUpRequest)
    (h1 : env.emailExistsErr = none) (h2 : env.emailExistsVal = false)
    (h3 : env.newUserErr = none) (h4 : env.userCreateErr = none)
    (h5 : env.tokenErr = none) :
    SignUpExecute env st req =
      (Except.ok
        { user := { id := st.ctr + 1, name := req.name, email := req.email },
          token := env.tokenVal },
       (orchestrateWelcomeEmail env { st with ctr := st.ctr + 2 }
         { id := st.ctr + 1, name := req.name, email := req.email }).2) := by
  unfold SignUpExecute
  rw [h1]
  dsimp only
  simp only [h2, Bool.false_eq_true, if_false]
  rw [h3]
  dsimp only
  rw [h4]
  dsimp only
  rw [h5]

/-- A failing publish (disconnected broker or failing channel) leaves
`orchestrateWelcomeEmail` with the created row persisted and nothing on the
queue. -/
theorem orchestrate_publish_failure (env : SignUpEnv) (st : SigState)
    (u : User) (penv : PublisherEnv)
    (hname : u.name ≠ "") (hemail : emailRegexMatch u.email = true)
    (hbody : (generateWelcomeEmailBody u.name).length ≤ 65535)
    (hcreate : env.emailCreateErr = none)
    (hpub : env.publisher = some penv)
    (hfail : penv.connected = false ∨ ∃ m, penv.publishFail = some m) :
    ∃ row : Email,
      (orchestrateWelcomeEmail env st u).2.emailDb =
        st.emailDb ++ [(st.ctr + 1, row)] ∧
      (orchestrateWelcomeEmail env st u).2.published = st.published := by
  have hnew := newWelcomeEmail_ok st.ctr env.now
      { userID := uuidString u.id, userName := u.name, userEmail := u.email }
      (uuidString_ne_empty u.id) hname hemail hbody
  unfold orchestrateWelcomeEmail
  dsimp only
  rw [hnew]
  dsimp only
  rw [hcreate]
  dsimp only
  unfold repoCreateEmail
  dsimp only
  rw [hpub]
  dsimp only
  unfold PublishWelcomeEmail
  rcases hfail with hconn | ⟨m, hpf⟩
  · simp only [hconn, Bool.not_false, if_true]
    exact ⟨_, rfl, List.append_nil _⟩
  · by_cases hconn : penv.connected = true
    · simp only [hconn, Bool.not_true, Bool.false_eq_true, if_false]
      rw [hpf]
      dsimp only
      exact ⟨_, rfl, by simp⟩
    · have hc : penv.connected = false := by
        cases hcv : penv.connected
        · rfl
        · exact absurd hcv hconn
      simp only [hc, Bool.not_false, if_true]
      exact ⟨_, rfl, List.append_nil _⟩

/-- C2: the `EmailID` placed in the published `QueueMessage` is a freshly
generated uuid, not the uuid of the Email row the signup path just
persisted; consequently the envelope never carries the persisted row's id,
and a `GetByID` lookup by the envelope's `EmailID` in the post-signup store
finds nothing. -/
theorem c2_published_emailid_is_fresh (env : SignUpEnv) (st : SigState)
    (u : User) (penv : PublisherEnv)
    (hname : u.name ≠ "")
    (hemail : emailRegexMatch u.email = true)
    (hbody : (generateWelcomeEmailBody u.name).length ≤ 65535)
    (hcreate : env.emailCreateErr = none)
    (hpub : env.publisher = some penv)
    (hconn : penv.connected = true)
    (hpok : penv.publishFail = none)
    (hkeys : ∀ p ∈ st.emailDb, p.1 < st.ctr) :
    ∃ row : Email, ∃ msg : QueueMessage,
      (orchestrateWelcomeEmail env st u).2.emailDb =
        st.emailDb ++ [(st.ctr + 1, row)] ∧
      (orchestrateWelcomeEmail env st u).2.published = st.published ++ [msg] ∧
      msg.emailID = st.ctr + 2 ∧
      msg.emailID ≠ st.ctr + 1 ∧
      dbLookup (orchestrateWelcomeEmail env st u).2.emailDb msg.emailID = none := by
  have hnew := newWelcomeEmail_ok st.ctr env.now
      { userID := uuidString u.id, userName := u.name, userEmail := u.email }
      (uuidString_ne_empty u.id) hname hemail hbody
  unfold orchestrateWelcomeEmail
  dsimp only
  rw [hnew]
  dsimp only
  rw [hcreate]
  dsimp only
  unfold repoCreateEmail
  dsimp only
  rw [hpub]
  dsimp only
  unfold PublishWelcomeEmail
  simp only [hconn, Bool.not_true, Bool.false_eq_true, if_false]
  rw [hpok]
  dsimp only
  refine ⟨{ id := st.ctr + 1, toAddr := u.email,
            subject := "Welcome to Backend Challenge!",
            body := generateWelcomeEmailBody u.name,
            etype := EmailType.welcome, status := Status.pending,
            attempts := 0, maxAttempts := 3, createdAt := env.now,
            sentAt := none, errorMsg := "" },
          ⟨st.ctr + 2, EmailType.welcome,
            { userID := uuidString u.id, userName := u.name, userEmail := u.email }⟩,
          rfl, rfl, rfl, (by omega : st.ctr + 2 ≠ st.ctr + 1), ?_⟩
  apply dbLookup_eq_none
  intro p hp
  rcases List.mem_append.mp hp with hmem | hmem
  · have hlt := hkeys p hmem
    show p.1 ≠ st.ctr + 2
    omega
  · rcases List.mem_singleton.mp hmem with rfl
    show st.ctr + 1 ≠ st.ctr + 2
    omega

/-- Witness for C2: a concrete signup publish against an empty store. -/
theorem c2_witness :
    ∃ row : Email, ∃ msg : QueueMessage,
      (orchestrateWelcomeEmail signupEnvOk sigStateFixture
          { id := 2, name := "John", email := "john@example.com" }).2.emailDb =
        sigStateFixture.emailDb ++ [(sigStateFixture.ctr + 1, row)] ∧
      (orchestrateWelcomeEmail signupEnvOk sigStateFixture
          { id := 2, name := "John", email := "john@example.com" }).2.published =
        sigStateFixture.published ++ [msg] ∧
      msg.emailID = sigStateFixture.ctr + 2 ∧
      msg.emailID ≠ sigStateFixture.ctr + 1 ∧
      dbLookup
        (orchestrateWelcomeEmail signupEnvOk sigStateFixture
          { id := 2, name := "John", email := "john@example.com" }).2.emailDb
        msg.emailID = none :=
  c2_published_emailid_is_fresh signupEnvOk sigStateFixture
    { id := 2, name := "John", email := "john@example.com" }
    { connected := true, publishFail := none }
    (by decide) (by decide) (by decide) rfl rfl rfl rfl
    (by simp [sigStateFixture])

/-- C7: when the broker publish fails after the Email row was created, the
signup still returns the success response, the persisted row stays in the
store untouched, and nothing is enqueued. -/
theorem c7_signup_survives_publish_failure (env : SignUpEnv) (st : SigState)
    (req : SignUpRequest) (penv : PublisherEnv)
    (h1 : env.emailExistsErr = none) (h2 : env.emailExistsVal = false)
    (h3 : env.newUserErr = none) (h4 : env.userCreateErr = none)
    (h5 : env.tokenErr = none) (h6 : env.emailCreateErr = none)
    (hname : req.name ≠ "") (hemail : emailRegexMatch req.email = true)
    (hbody : (generateWelcomeEmailBody req.name).length ≤ 65535)
    (hpub : env.publisher = some penv)
    (hfail : penv.connected = false ∨ ∃ m, penv.publishFail = some m) :
    (SignUpExecute env st req).1 =
      Except.ok
        { user := { id := st.ctr + 1, name := req.name, email := req.email },
          token := env.tokenVal } ∧
    (∃ row : Email,
      (SignUpExecute env st req).2.emailDb =
        st.emailDb ++ [(st.ctr + 3, row)]) ∧
    (SignUpExecute env st req).2.published = st.published := by
  have hshape := signUpExecute_happy_shape env st req h1 h2 h3 h4 h5
  have horch := orchestrate_publish_failure env { st with ctr := st.ctr + 2 }
      { id := st.ctr + 1, name := req.name, email := req.email } penv
      hname hemail hbody h6 hpub hfail
  obtain ⟨row, hdb, hpubl⟩ := horch
  rw [hshape]
  exact ⟨rfl, ⟨row, hdb⟩, hpubl⟩

/-- Witness for C7: a disconnected broker during a concrete signup. -/
theorem c7_witness :
    (SignUpExecute signupEnvPubDown sigStateFixture signupReqFixture).1 =
      Except.ok
        { user := { id := sigStateFixture.ctr + 1, name := signupReqFixture.name,
                    email := signupReqFixture.email },
          token := signupEnvPubDown.tokenVal } ∧
    (∃ row : Email,
      (SignUpExecute signupEnvPubDown sigStateFixture signupReqFixture).2.emailDb =
        sigStateFixture.emailDb ++ [(sigStateFixture.ctr + 3, row)]) ∧
    (SignUpExecute signupEnvPubDown sigStateFixture signupReqFixture).2.published =
      sigStateFixture.published :=
  c7_signup_survives_publish_failure signupEnvPubDown sigStateFixture
    signupReqFixture { connected := false, publishFail := none }
    rfl rfl rfl rfl rfl rfl (by decide) (by decide) (by decide) rfl (Or.inl rfl)

end BackendChallenge
